/-
Verification of the PacketQTH connection/authentication layer.

Shallow embedding of the Python sources:
  * `src/auth/totp.py`    — TOTPAuthenticator (rate limiting, replay cache,
                            TOTP verification) and SessionManager.
  * `src/server/session.py` — TelnetSession.authenticate, the command-loop
                            expiry check and the write re-authentication check.
  * `src/server/telnet.py` — IP safelist construction and `is_ip_allowed`.

Python dictionaries are modelled as maps `String → Option α`; mutation is
modelled by explicit state passing.  Wall-clock time (`time.time()` /
`datetime.now()`) is modelled as an integer number of seconds passed
explicitly to each operation (the Python code reads the clock several times
inside one call; the calls are modelled at a single instant).  The HOTP code
generator underlying `pyotp.TOTP.at` (HMAC-SHA1, 6 decimal digits) is an
uninterpreted oracle parameter `hotp : String → Int → String`
(secret → counter → rendered code); the 30-second step and the ±3-step
window of `totp.verify(token, valid_window=3)` are embedded explicitly.
String manipulation (`str.upper`, `str.strip`, `str.split`, `str.isdigit`)
is embedded over the character lists of the strings; following the spec's
reading, digits and whitespace are the ASCII ones.
-/
import Mathlib

namespace PacketQTH

/-! ## String primitives -/

/-- Model of `str.split(sep)` for a one-character separator. -/
def splitChar (sep : Char) : List Char → List (List Char)
  | [] => [[]]
  | c :: cs =>
    let r := splitChar sep cs
    if c = sep then [] :: r
    else
      match r with
      | [] => [[c]]
      | g :: gs => (c :: g) :: gs

/-- Model of `str.split(sep)` on a string, producing strings. -/
def splitc (sep : Char) (s : String) : List String :=
  (splitChar sep s.toList).map (fun g => String.mk g)

/-- Model of `str.strip()`: remove leading and trailing whitespace. -/
def pyStrip (s : String) : String :=
  String.mk (((s.toList.dropWhile Char.isWhitespace).reverse.dropWhile
    Char.isWhitespace).reverse)

/-- Model of `str.upper()`. -/
def pyUpper (s : String) : String :=
  String.mk (s.toList.map Char.toUpper)

/-- Model of `sep in s` for a one-character needle. -/
def containsChar (sep : Char) (s : String) : Bool :=
  s.toList.contains sep

/-- Pointwise update of a string-keyed map; `v = none` models `del d[k]`. -/
def mapUpdate {α : Type} (f : String → Option α) (k : String) (v : Option α) :
    String → Option α :=
  fun k' => if k' = k then v else f k'

/-! ## Authenticator state (`TOTPAuthenticator`, src/auth/totp.py) -/

/-- The mutable state of `TOTPAuthenticator`:
`users` (callsign → TOTP secret), `failed_attempts` (callsign → failure
timestamps) and `used_tokens` (callsign → (token → expiry time)). -/
structure AuthState where
  users : String → Option String
  failed_attempts : String → Option (List Int)
  used_tokens : String → Option (String → Option Int)

/-- Embedding of `TOTPAuthenticator.is_rate_limited` (totp.py lines 75–98): if the callsign
has no failure entry, return `False`; otherwise drop entries not strictly
newer than `now - 300`, store the purged list back, and report whether at
least 5 entries remain. -/
def is_rate_limited (st : AuthState) (now : Int) (callsign : String) :
    Bool × AuthState :=
  match st.failed_attempts callsign with
  | none => (false, st)
  | some attempts =>
    let cutoff_time := now - 300
    let kept := attempts.filter (fun attempt => decide (attempt > cutoff_time))
    (decide (kept.length ≥ 5),
     { st with failed_attempts := mapUpdate st.failed_attempts callsign (some kept) })

/-- Embedding of `TOTPAuthenticator.record_failed_attempt` (totp.py lines 100–104). -/
def record_failed_attempt (st : AuthState) (now : Int) (callsign : String) :
    AuthState :=
  let prev := (st.failed_attempts callsign).getD []
  { st with failed_attempts := mapUpdate st.failed_attempts callsign (some (prev ++ [now])) }

/-- Embedding of `TOTPAuthenticator.clear_failed_attempts` (totp.py lines 106–109). -/
def clear_failed_attempts (st : AuthState) (callsign : String) : AuthState :=
  { st with failed_attempts := mapUpdate st.failed_attempts callsign none }

/-- Model of `pyotp.TOTP.timecode` for the default 30-second interval:
`int(time / 30)` (truncation toward zero). -/
def timecode (now : Int) : Int := Int.tdiv now 30

/-- Model of `pyotp.TOTP(secret).verify(token, valid_window=3)`: the token is compared
against the codes of the 7 counters `timecode now + i` for `i ∈ [-3, 3]`.
`hotp secret counter` is the uninterpreted 6-digit code generator. -/
def totpVerify (hotp : String → Int → String) (secret token : String) (now : Int) :
    Bool :=
  (List.range 7).any (fun k => token == hotp secret (timecode now + (k : Int) - 3))

/-- Result of `verify_totp`: the returned `(bool, str)` pair together with the
updated authenticator state. -/
structure VerifyResult where
  ok : Bool
  msg : String
  st : AuthState

/-- The replay-cache purge comprehension of `verify_totp` (totp.py line 137):
`{t: exp for t, exp in callsign_used.items() if exp > now}`. -/
def purge_used (m : String → Option Int) (now : Int) : String → Option Int :=
  fun t => (m t).bind (fun exp => if exp > now then some exp else none)

/-- Embedding of `TOTPAuthenticator.verify_totp` (totp.py lines 111–155), checked in source
order: uppercase the callsign, rate limit, identity existence, replay cache
(purged into a local copy), then the TOTP comparison. -/
def verify_totp (hotp : String → Int → String) (st : AuthState) (now : Int)
    (callsign token : String) : VerifyResult :=
  let callsign := pyUpper callsign
  let rl := is_rate_limited st now callsign
  if rl.1 then
    ⟨false, "Too many failed attempts. Try again in 5 minutes.", rl.2⟩
  else
    let st := rl.2
    match st.users callsign with
    | none =>
      ⟨false, "Invalid callsign or token.", record_failed_attempt st now callsign⟩
    | some secret =>
      let callsign_used := purge_used ((st.used_tokens callsign).getD (fun _ => none)) now
      if (callsign_used token).isSome then
        ⟨false, "Code already used. Wait for next code.", st⟩
      else
        if totpVerify hotp secret token now then
          let callsign_used := mapUpdate callsign_used token (some (now + 90))
          let st := { st with
            used_tokens := mapUpdate st.used_tokens callsign (some callsign_used) }
          ⟨true, "Authentication successful.", clear_failed_attempts st callsign⟩
        else
          ⟨false, "Invalid callsign or token.", record_failed_attempt st now callsign⟩

/-! ## Sessions (`Session`, `SessionManager`, src/auth/totp.py) -/

/-- Embedding of the `Session` dataclass (totp.py lines 17–31); timestamps in seconds. -/
structure Session where
  callsign : String
  authenticated_at : Int
  last_activity : Int
  session_id : String
deriving DecidableEq

/-- Embedding of `Session.is_expired(timeout_minutes)` (totp.py lines 25–27):
`datetime.now() - last_activity > timedelta(minutes=timeout_minutes)`. -/
def session_is_expired (s : Session) (timeout_minutes : Int) (now : Int) : Bool :=
  decide (now - s.last_activity > 60 * timeout_minutes)

/-- State of `SessionManager` (totp.py lines 158–242). -/
structure SessionManager where
  sessions : String → Option Session
  timeout_minutes : Int

/-- Embedding of `SessionManager.create_session` (totp.py lines 178–199).  The fresh
`session_id` produced by `secrets.token_hex(16)` is passed in explicitly. -/
def create_session (sm : SessionManager) (now : Int) (callsign session_id : String) :
    String × SessionManager :=
  let session : Session :=
    { callsign := pyUpper callsign
      authenticated_at := now
      last_activity := now
      session_id := session_id }
  (session_id, { sm with sessions := mapUpdate sm.sessions session_id (some session) })

/-- Embedding of `SessionManager.get_session` (totp.py lines 201–223): unknown id is `none`;
expired → delete and `none`; otherwise refresh `last_activity` and return. -/
def get_session (sm : SessionManager) (now : Int) (session_id : String) :
    Option Session × SessionManager :=
  match sm.sessions session_id with
  | none => (none, sm)
  | some session =>
    if session_is_expired session sm.timeout_minutes now then
      (none, { sm with sessions := mapUpdate sm.sessions session_id none })
    else
      let session := { session with last_activity := now }
      (some session, { sm with sessions := mapUpdate sm.sessions session_id (some session) })

/-! ## Telnet session (`TelnetSession`, src/server/session.py)

Stream input is modelled as the list of lines the client will send;
`read_line` consumes the head (already `.strip()`-ed, session.py line 133) and
yields `none` when the stream is exhausted, which stands for both timeout and
disconnect.  The transcript `sent` records every string passed to
`self.send`, prompts included. -/

/-- Embedding of `TelnetSession.read_line` (session.py lines 104–144). -/
def read_line (inputs : List String) : Option String × List String :=
  match inputs with
  | [] => (none, [])
  | line :: rest => (some (pyStrip line), rest)

/-- The six-digit format check used at login (session.py line 203) and before
write operations (line 321): `not code or len(code) != 6 or not code.isdigit()`
rejects. -/
def validCodeFormat (code : String) : Bool :=
  !(code = "") && code.toList.length == 6 && code.toList.all Char.isDigit

/-- Result of `TelnetSession.authenticate`: return value, transcript, final
authenticator and session-manager states, bound callsign/session, unread
input, and the number of `verify_totp` calls made. -/
structure AuthenticateResult where
  ok : Bool
  callsign : Option String
  session : Option Session
  sent : List String
  st : AuthState
  sm : SessionManager
  inputs : List String
  verify_calls : Nat

/-- One iteration of the `for attempt in range(1, max_auth_attempts + 1)`
loop of `TelnetSession.authenticate` (session.py lines 158–238), recursing on
the number of remaining iterations; `continue` is the recursive call with one
fewer remaining attempt.  `fresh_id` models `secrets.token_hex(16)`. -/
def authenticate_go (hotp : String → Int → String) (now : Int)
    (max_auth_attempts : Nat) (fresh_id : String) :
    Nat → Nat → Bool → List String → AuthState → SessionManager →
    List String → Nat → AuthenticateResult
  | 0, _, _, inputs, st, sm, sent, vc =>
    -- loop exhausted (lines 235–238)
    ⟨false, none, none, sent ++ ["Maximum authentication attempts exceeded."],
     st, sm, inputs, vc⟩
  | remaining + 1, attempt, bpq_mode, inputs, st, sm, sent, vc =>
    -- read the callsign (lines 160–166)
    let firstBpq := bpq_mode && attempt == 1
    let sent := if firstBpq then sent else sent ++ ["Callsign: "]
    let r := read_line inputs
    match r.1 with
    | none =>
      ⟨false, none, none, sent, st, sm, r.2, vc⟩
    | some callsign0 =>
      let inputs := r.2
      let callsign := pyStrip (pyUpper callsign0)
      -- empty-callsign handling (lines 174–186)
      let step2 : Option (String × Bool × List String × List String) :=
        if callsign = "" then
          if firstBpq then
            -- switch to standard mode and re-prompt (lines 176–183)
            let sent := sent ++ ["Callsign: "]
            let r' := read_line inputs
            match r'.1 with
            | none => none
            | some cs0 =>
              if cs0 = "" then none
              else some (pyStrip (pyUpper cs0), false, r'.2, sent)
          else none
        else some (callsign, bpq_mode, inputs, sent)
      match step2 with
      | none =>
        -- "Callsign required." then `continue` (lines 180–182, 184–186)
        authenticate_go hotp now max_auth_attempts fresh_id remaining (attempt + 1)
          (if callsign = "" && firstBpq then false else bpq_mode)
          (if callsign = "" && firstBpq then
             (read_line inputs).2
           else inputs)
          st sm
          ((if callsign = "" && firstBpq then sent ++ ["Callsign: "] else sent)
             ++ ["Callsign required."]) vc
      | some (callsign, bpq_mode, inputs, sent) =>
        -- rate-limit gate: aborts the whole login (lines 189–192)
        let rl := is_rate_limited st now callsign
        if rl.1 then
          ⟨false, none, none,
           sent ++ ["Too many failed attempts. Try again in 5 minutes."],
           rl.2, sm, inputs, vc⟩
        else
          let st := rl.2
          -- read the TOTP code (lines 195–201)
          let sent := sent ++ ["TOTP Code: "]
          let r' := read_line inputs
          match r'.1 with
          | none => ⟨false, none, none, sent, st, sm, r'.2, vc⟩
          | some code0 =>
            let inputs := r'.2
            let totp_code := pyStrip code0
            if !validCodeFormat totp_code then
              -- format rejection then `continue` (lines 203–205)
              authenticate_go hotp now max_auth_attempts fresh_id remaining
                (attempt + 1) bpq_mode inputs st sm
                (sent ++ ["Invalid code format (must be 6 digits)."]) vc
            else
              -- verify (line 208)
              let v := verify_totp hotp st now callsign totp_code
              if v.ok then
                -- success: create and bind a session (lines 210–222)
                let c := create_session sm now callsign fresh_id
                let g := get_session c.2 now c.1
                ⟨true, some callsign, g.1,
                 sent ++ ["", "Welcome " ++ callsign ++ "!", "Type H for help", ""],
                 v.st, g.2, inputs, vc + 1⟩
              else
                -- failure consumes the attempt (lines 224–233)
                authenticate_go hotp now max_auth_attempts fresh_id remaining
                  (attempt + 1) bpq_mode inputs v.st sm
                  (sent ++ [v.msg] ++
                   (if attempt < max_auth_attempts then
                      ["Try again (" ++ toString (max_auth_attempts - attempt)
                         ++ " attempts remaining).", ""]
                    else [])) (vc + 1)

/-- Embedding of `TelnetSession.authenticate` (session.py lines 146–238). -/
def authenticate (hotp : String → Int → String) (now : Int)
    (max_auth_attempts : Nat) (fresh_id : String) (bpq_mode : Bool)
    (inputs : List String) (st : AuthState) (sm : SessionManager) :
    AuthenticateResult :=
  authenticate_go hotp now max_auth_attempts fresh_id max_auth_attempts 1
    bpq_mode inputs st sm [] 0

/-- Result of the write re-authentication check inside
`TelnetSession.command_loop`. -/
structure WriteCheckResult where
  proceed : Bool
  sent : List String
  st : AuthState
  sm : SessionManager
  inputs : List String

/-- The write re-authentication check of `TelnetSession.command_loop`
(session.py lines 307–336): prompt for a fresh code; on timeout, malformed
code, or `verify_totp` rejection report and `continue` (`proceed = false`);
only on success does the command proceed to execution. -/
def command_write_check (hotp : String → Int → String) (st : AuthState)
    (sm : SessionManager) (now : Int) (callsign : String) (inputs : List String) :
    WriteCheckResult :=
  let sent := ["", "TOTP Code: "]
  let r := read_line inputs
  match r.1 with
  | none => ⟨false, sent ++ ["Operation cancelled."], st, sm, r.2⟩
  | some code0 =>
    let totp_code := pyStrip code0
    if !validCodeFormat totp_code then
      ⟨false, sent ++ ["Invalid code format (must be 6 digits).", ""], st, sm, r.2⟩
    else
      let v := verify_totp hotp st now callsign totp_code
      if v.ok then ⟨true, sent, v.st, sm, r.2⟩
      else ⟨false, sent ++ [v.msg, ""], v.st, sm, r.2⟩

/-- The session-expiry check at the head of `TelnetSession.command_loop`
(session.py lines 268–273): `self.session and
self.session.is_expired(self.timeout_seconds // 60)`; `true` means the loop
sends "Session expired due to inactivity." and breaks. -/
def command_loop_expiry_check (timeout_seconds : Nat) (session : Option Session)
    (now : Int) : Bool :=
  match session with
  | none => false
  | some s => session_is_expired s ((timeout_seconds / 60 : Nat) : Int) now

/-! ## IP admission (`TelnetServer`, src/server/telnet.py)

`is_ip_allowed` delegates to the Python `ipaddress` standard library; the
relevant slice of its documented parsing and membership semantics is embedded
below (CPython `_ip_int_from_string` for IPv4 and IPv6, numeric CIDR
suffixes; IPv6 zone identifiers and IPv4 dotted-netmask suffixes are not
consumed by this repository's configuration format and are not modelled). -/

/-- One octet of a dotted-quad IPv4 address (CPython `_parse_octet`): 1–3
ASCII digits, no leading zero, value ≤ 255. -/
def parseOctet (s : String) : Option Nat :=
  let cs := s.toList
  if cs = [] then none
  else if !cs.all Char.isDigit then none
  else if cs.length > 3 then none
  else if cs.length > 1 && cs.headD '0' == '0' then none
  else
    let n := cs.foldl (fun n c => n * 10 + (c.toNat - 48)) 0
    if n > 255 then none else some n

/-- CPython `IPv4Address._ip_int_from_string`: exactly four octets. -/
def parseIPv4 (s : String) : Option Nat :=
  match (splitc '.' s).map parseOctet with
  | [some a, some b, some c, some d] => some (((a * 256 + b) * 256 + c) * 256 + d)
  | _ => none

/-- Hexadecimal digit value. -/
def hexVal (c : Char) : Option Nat :=
  if '0' ≤ c && c ≤ '9' then some (c.toNat - 48)
  else if 'a' ≤ c && c ≤ 'f' then some (c.toNat - 87)
  else if 'A' ≤ c && c ≤ 'F' then some (c.toNat - 55)
  else none

/-- One IPv6 hextet (CPython `_parse_hextet`): 1–4 hex digits. -/
def parseHextet (s : String) : Option Nat :=
  let cs := s.toList
  if cs = [] then none
  else if cs.length > 4 then none
  else
    cs.foldl (fun acc c => acc.bind (fun n => (hexVal c).map (fun h => n * 16 + h)))
      (some 0)

/-- A hextet position: either a raw string from the address text or a value
already produced by the embedded-IPv4 tail conversion. -/
def Hextet : Type := String ⊕ Nat

def hextetEmpty : Hextet → Bool
  | .inl s => s == ""
  | .inr _ => false

def hextetVal : Hextet → Option Nat
  | .inl s => parseHextet s
  | .inr n => some n

/-- Fold a run of hextets into an integer, 16 bits each. -/
def foldHextets (l : List Hextet) : Option Nat :=
  l.foldl (fun acc p => acc.bind (fun n => (hextetVal p).map (fun h => n * 65536 + h)))
    (some 0)

/-- CPython `IPv6Address._ip_int_from_string`: split on `:`, fold a trailing
dotted-quad into two hextets, locate the (at most one) interior `::` gap, and
assemble the 128-bit value. -/
def parseIPv6 (s : String) : Option Nat :=
  let raw := splitc ':' s
  if raw.length < 3 then none
  else
    let parts0 : List Hextet := raw.map .inl
    let tail4 : Option (List Hextet) :=
      match raw.getLast? with
      | some last =>
        if containsChar '.' last then
          (parseIPv4 last).map (fun v =>
            parts0.dropLast ++ [.inr (v / 65536), .inr (v % 65536)])
        else some parts0
      | none => none
    match tail4 with
    | none => none
    | some parts =>
      if parts.length > 9 then none
      else
        let interiorGaps := (List.range parts.length).filter (fun i =>
          decide (0 < i) && decide (i + 1 < parts.length)
            && hextetEmpty ((parts.get? i).getD (.inl "")))
        match interiorGaps with
        | [] =>
          -- no `::`: exactly eight hextets, none empty at either end
          if parts.length ≠ 8 then none
          else if hextetEmpty ((parts.get? 0).getD (.inl "")) then none
          else if hextetEmpty ((parts.getLast?).getD (.inl "")) then none
          else foldHextets parts
        | [i] =>
          let headEmpty := hextetEmpty ((parts.get? 0).getD (.inl ""))
          let lastEmpty := hextetEmpty ((parts.getLast?).getD (.inl ""))
          if headEmpty && i ≠ 1 then none
          else if lastEmpty && parts.length ≠ i + 2 then none
          else
            let hi := if headEmpty then 0 else i
            let lo := if lastEmpty then 0 else parts.length - i - 1
            if 8 ≤ hi + lo then none
            else
              let skipped := 8 - (hi + lo)
              match foldHextets (parts.take hi),
                    foldHextets (parts.drop (parts.length - lo)) with
              | some hv, some lv => some (hv * 2 ^ (16 * (skipped + lo)) + lv)
              | _, _ => none
        | _ => none

/-- An address value tagged with its version, as produced by
`ipaddress.ip_address`: IPv4 is tried first, then IPv6. -/
def ip_address (s : String) : Option (Bool × Nat) :=
  match parseIPv4 s with
  | some v => some (false, v)
  | none => (parseIPv6 s).map (fun v => (true, v))

/-- Keep the top `plen` bits of a `maxlen`-bit value (the `strict=False`
host-bit masking of `ip_network`). -/
def maskBits (v maxlen plen : Nat) : Nat :=
  v / 2 ^ (maxlen - plen) * 2 ^ (maxlen - plen)

/-- A parsed allowlist entry: version flag, masked network value, CIDR
length. -/
structure IpNetwork where
  isV6 : Bool
  netAddr : Nat
  plen : Nat
deriving DecidableEq

/-- Numeric CIDR suffix: decimal digits, at most the version's bit length. -/
def parsePlen (s : String) (maxlen : Nat) : Option Nat :=
  let cs := s.toList
  if cs = [] then none
  else if !cs.all Char.isDigit then none
  else
    let n := cs.foldl (fun n c => n * 10 + (c.toNat - 48)) 0
    if n > maxlen then none else some n

/-- Model of `ipaddress.ip_network(entry, strict=False)`: bare address or
`address/len`; host bits are masked off rather than rejected. -/
def ip_network (s : String) : Option IpNetwork :=
  match splitc '/' s with
  | [a] => (ip_address a).map (fun p => ⟨p.1, p.2, if p.1 then 128 else 32⟩)
  | [a, pl] =>
    match ip_address a with
    | some p =>
      let maxlen := if p.1 then 128 else 32
      (parsePlen pl maxlen).map (fun n => ⟨p.1, maskBits p.2 maxlen n, n⟩)
    | none => none
  | _ => none

/-- Model of `ip in network` (CPython `_BaseNetwork.__contains__`): `False` on a
version mismatch, otherwise compare under the network mask. -/
def addressInNetwork (ip : Bool × Nat) (n : IpNetwork) : Bool :=
  ip.1 == n.isV6 && maskBits ip.2 (if n.isV6 then 128 else 32) n.plen == n.netAddr

/-- Safelist construction in `TelnetServer.__init__` (telnet.py lines 74–84):
each entry is parsed with `ip_network(entry, strict=False)`; a `ValueError`
is logged and the entry skipped. -/
def parse_ip_safelist (entries : List String) : List IpNetwork :=
  entries.filterMap ip_network

/-- Embedding of `TelnetServer.is_ip_allowed` (telnet.py lines 93–119): empty safelist
allows all; an unparseable address is rejected (the `ValueError` handler
returns `False`); otherwise membership in any safelist network admits. -/
def is_ip_allowed (safelist : List IpNetwork) (ip_str : String) : Bool :=
  if safelist.isEmpty then true
  else
    match ip_address ip_str with
    | none => false
    | some ip => safelist.any (fun n => addressInNetwork ip n)

/-- Remote address resolution in `TelnetServer.handle_connection`
(telnet.py lines 133–135): a connection with no peer name is checked under
the literal address string "unknown". -/
def remote_ip_of (peername : Option (String × Nat)) : String :=
  match peername with
  | some p => p.1
  | none => "unknown"

/-! ## Concrete states used by the witnesses -/

/-- A secret store holding the single callsign `K1ABC`. -/
def usersA : String → Option String :=
  fun c => if c = "K1ABC" then some "SECRET" else none

/-- Fresh authenticator state over `usersA`. -/
def stA : AuthState := ⟨usersA, fun _ => none, fun _ => none⟩

/-- A code oracle making `"111111"` the valid code for every counter. -/
def hotpA : String → Int → String := fun _ _ => "111111"

/-- A code oracle making `"222222"` the valid code for every counter. -/
def hotpB : String → Int → String := fun _ _ => "222222"

/-- Authenticator state over `usersA` in which `K1ABC` has five recent
failures (timestamps 900–940). -/
def stL : AuthState :=
  ⟨usersA,
   fun c => if c = "K1ABC" then some [900, 910, 920, 930, 940] else none,
   fun _ => none⟩

/-- Authenticator state over `usersA` in which `K1ABC` has already consumed
the code `"111111"` (replay entry expiring at 1090). -/
def stR : AuthState :=
  ⟨usersA, fun _ => none,
   fun c => if c = "K1ABC" then
       some (fun t => if t = "111111" then some 1090 else none)
     else none⟩

/-- The session table used by the `get_session` witness: one session `"A"`
with `last_activity = 0`, 30-minute timeout. -/
def smA : SessionManager :=
  ⟨fun sid => if sid = "A" then some ⟨"K1ABC", 0, 0, "A"⟩ else none, 30⟩


/-! ## Basic lemmas about the authenticator -/

theorem is_rate_limited_of_none (st : AuthState) (now : Int) (c : String)
    (h : st.failed_attempts c = none) :
    is_rate_limited st now c = (false, st) := by
  simp [is_rate_limited, h]

theorem is_rate_limited_of_some (st : AuthState) (now : Int) (c : String)
    (l : List Int) (h : st.failed_attempts c = some l) :
    is_rate_limited st now c =
      (decide (5 ≤ (l.filter (fun a => decide (a > now - 300))).length),
       { st with
           failed_attempts :=
             mapUpdate st.failed_attempts c
               (some (l.filter (fun a => decide (a > now - 300)))) }) := by
  simp [is_rate_limited, h]

theorem is_rate_limited_users (st : AuthState) (now : Int) (c : String) :
    ((is_rate_limited st now c).2).users = st.users := by
  simp only [is_rate_limited]
  split <;> rfl

theorem is_rate_limited_used_tokens (st : AuthState) (now : Int) (c : String) :
    ((is_rate_limited st now c).2).used_tokens = st.used_tokens := by
  simp only [is_rate_limited]
  split <;> rfl

theorem is_rate_limited_failed_other (st : AuthState) (now : Int) (c d : String)
    (h : d ≠ c) :
    ((is_rate_limited st now c).2).failed_attempts d = st.failed_attempts d := by
  simp only [is_rate_limited]
  split
  · rfl
  · simp [mapUpdate, h]

/-- Branch equation: a rate-limited callsign short-circuits `verify_totp`. -/
theorem verify_totp_eq_of_limited (hotp : String → Int → String) (st : AuthState)
    (now : Int) (c t : String)
    (h1 : (is_rate_limited st now (pyUpper c)).1 = true) :
    verify_totp hotp st now c t =
      ⟨false, "Too many failed attempts. Try again in 5 minutes.",
       (is_rate_limited st now (pyUpper c)).2⟩ := by
  simp [verify_totp, h1]

/-- Branch equation: an unknown callsign records a failure. -/
theorem verify_totp_eq_of_unknown (hotp : String → Int → String) (st : AuthState)
    (now : Int) (c t : String)
    (h1 : (is_rate_limited st now (pyUpper c)).1 = false)
    (h2 : ((is_rate_limited st now (pyUpper c)).2).users (pyUpper c) = none) :
    verify_totp hotp st now c t =
      ⟨false, "Invalid callsign or token.",
       record_failed_attempt (is_rate_limited st now (pyUpper c)).2 now (pyUpper c)⟩ := by
  simp [verify_totp, h1, h2]

/-- Branch equation: a token still in the purged replay set is rejected
before any TOTP computation. -/
theorem verify_totp_eq_of_replay (hotp : String → Int → String) (st : AuthState)
    (now : Int) (c t : String) (secret : String) (exp : Int)
    (h1 : (is_rate_limited st now (pyUpper c)).1 = false)
    (h2 : ((is_rate_limited st now (pyUpper c)).2).users (pyUpper c) = some secret)
    (h3 : purge_used ((((is_rate_limited st now (pyUpper c)).2).used_tokens
            (pyUpper c)).getD (fun _ => none)) now t = some exp) :
    verify_totp hotp st now c t =
      ⟨false, "Code already used. Wait for next code.",
       (is_rate_limited st now (pyUpper c)).2⟩ := by
  simp [verify_totp, h1, h2, h3]

/-- Branch equation: the success path inserts the token into the purged
replay map with expiry `now + 90` and clears the failure log. -/
theorem verify_totp_eq_of_match (hotp : String → Int → String) (st : AuthState)
    (now : Int) (c t : String) (secret : String)
    (h1 : (is_rate_limited st now (pyUpper c)).1 = false)
    (h2 : ((is_rate_limited st now (pyUpper c)).2).users (pyUpper c) = some secret)
    (h3 : purge_used ((((is_rate_limited st now (pyUpper c)).2).used_tokens
            (pyUpper c)).getD (fun _ => none)) now t = none)
    (h4 : totpVerify hotp secret t now = true) :
    verify_totp hotp st now c t =
      ⟨true, "Authentication successful.",
       clear_failed_attempts
         { (is_rate_limited st now (pyUpper c)).2 with
           used_tokens := mapUpdate
             ((is_rate_limited st now (pyUpper c)).2).used_tokens (pyUpper c)
             (some (mapUpdate
               (purge_used ((((is_rate_limited st now (pyUpper c)).2).used_tokens
                  (pyUpper c)).getD (fun _ => none)) now)
               t (some (now + 90)))) }
         (pyUpper c)⟩ := by
  simp [verify_totp, h1, h2, h3, h4]

/-- Branch equation: a fresh token that fails the TOTP comparison records a
failure and yields the generic message. -/
theorem verify_totp_eq_of_mismatch (hotp : String → Int → String) (st : AuthState)
    (now : Int) (c t : String) (secret : String)
    (h1 : (is_rate_limited st now (pyUpper c)).1 = false)
    (h2 : ((is_rate_limited st now (pyUpper c)).2).users (pyUpper c) = some secret)
    (h3 : purge_used ((((is_rate_limited st now (pyUpper c)).2).used_tokens
            (pyUpper c)).getD (fun _ => none)) now t = none)
    (h4 : totpVerify hotp secret t now = false) :
    verify_totp hotp st now c t =
      ⟨false, "Invalid callsign or token.",
       record_failed_attempt (is_rate_limited st now (pyUpper c)).2 now (pyUpper c)⟩ := by
  simp [verify_totp, h1, h2, h3, h4]

/-- Inversion: a successful `verify_totp` call knew the callsign's secret,
cleared the failure log, and left the token in the replay cache with expiry
`now + 90`. -/
theorem verify_totp_ok_state (hotp : String → Int → String) (st : AuthState)
    (now : Int) (c t : String)
    (hok : (verify_totp hotp st now c t).ok = true) :
    (verify_totp hotp st now c t).st.failed_attempts (pyUpper c) = none
    ∧ (∃ secret, (verify_totp hotp st now c t).st.users (pyUpper c) = some secret
        ∧ st.users (pyUpper c) = some secret)
    ∧ ∃ m, (verify_totp hotp st now c t).st.used_tokens (pyUpper c) = some m
        ∧ m t = some (now + 90) := by
  by_cases h1 : (is_rate_limited st now (pyUpper c)).1 = true
  · rw [verify_totp_eq_of_limited hotp st now c t h1] at hok
    simp at hok
  · have h1f : (is_rate_limited st now (pyUpper c)).1 = false := by
      simpa using h1
    cases hu : ((is_rate_limited st now (pyUpper c)).2).users (pyUpper c) with
    | none =>
      rw [verify_totp_eq_of_unknown hotp st now c t h1f hu] at hok
      simp at hok
    | some secret =>
      cases hp : purge_used ((((is_rate_limited st now (pyUpper c)).2).used_tokens
          (pyUpper c)).getD (fun _ => none)) now t with
      | some e =>
        rw [verify_totp_eq_of_replay hotp st now c t secret e h1f hu hp] at hok
        simp at hok
      | none =>
        cases htv : totpVerify hotp secret t now with
        | false =>
          rw [verify_totp_eq_of_mismatch hotp st now c t secret h1f hu hp htv] at hok
          simp at hok
        | true =>
          rw [verify_totp_eq_of_match hotp st now c t secret h1f hu hp htv]
          refine ⟨by simp [clear_failed_attempts, mapUpdate], ⟨secret, ?_, ?_⟩, ?_⟩
          · simpa [clear_failed_attempts] using hu
          · rw [← is_rate_limited_users st now (pyUpper c)]
            exact hu
          · refine ⟨mapUpdate (purge_used ((((is_rate_limited st now
                (pyUpper c)).2).used_tokens (pyUpper c)).getD (fun _ => none)) now)
                t (some (now + 90)), ?_, ?_⟩
            · simp [clear_failed_attempts, mapUpdate]
            · simp [mapUpdate]

/-- The function `is_rate_limited` never reads the secret store: replacing `users` leaves
its Boolean unchanged and carries the replacement through. -/
theorem is_rate_limited_set_users (st : AuthState) (now : Int) (c : String)
    (u : String → Option String) :
    is_rate_limited { st with users := u } now c
      = ((is_rate_limited st now c).1,
         { (is_rate_limited st now c).2 with users := u }) := by
  cases h : st.failed_attempts c <;> simp [is_rate_limited, h]

theorem is_rate_limited_set_users_failed (st : AuthState) (now : Int)
    (c : String) (u : String → Option String) :
    ((is_rate_limited { st with users := u } now c).2).failed_attempts
      = ((is_rate_limited st now c).2).failed_attempts := by
  cases h : st.failed_attempts c <;> simp [is_rate_limited, h]

theorem is_rate_limited_set_users_used (st : AuthState) (now : Int)
    (c : String) (u : String → Option String) :
    ((is_rate_limited { st with users := u } now c).2).used_tokens
      = st.used_tokens := by
  cases h : st.failed_attempts c <;> simp [is_rate_limited, h]

/-- The function `verify_totp` reads the state only at the key `pyUpper c`: two states
agreeing there on all three maps produce the same verdict and message. -/
theorem verify_totp_congr_key (hotp : String → Int → String) (st st2 : AuthState)
    (now : Int) (c t : String)
    (hu : st.users (pyUpper c) = st2.users (pyUpper c))
    (hf : st.failed_attempts (pyUpper c) = st2.failed_attempts (pyUpper c))
    (hk : st.used_tokens (pyUpper c) = st2.used_tokens (pyUpper c)) :
    (verify_totp hotp st now c t).ok = (verify_totp hotp st2 now c t).ok
    ∧ (verify_totp hotp st now c t).msg = (verify_totp hotp st2 now c t).msg := by
  have hrl1 : (is_rate_limited st now (pyUpper c)).1
      = (is_rate_limited st2 now (pyUpper c)).1 := by
    cases h2 : st2.failed_attempts (pyUpper c) with
    | none =>
      rw [is_rate_limited_of_none st now (pyUpper c) (hf.trans h2),
        is_rate_limited_of_none st2 now (pyUpper c) h2]
    | some l =>
      rw [is_rate_limited_of_some st now (pyUpper c) l (hf.trans h2),
        is_rate_limited_of_some st2 now (pyUpper c) l h2]
  have hrlu : ((is_rate_limited st now (pyUpper c)).2).users (pyUpper c)
      = ((is_rate_limited st2 now (pyUpper c)).2).users (pyUpper c) := by
    rw [is_rate_limited_users, is_rate_limited_users]
    exact hu
  have hrlk : ((is_rate_limited st now (pyUpper c)).2).used_tokens (pyUpper c)
      = ((is_rate_limited st2 now (pyUpper c)).2).used_tokens (pyUpper c) := by
    rw [is_rate_limited_used_tokens, is_rate_limited_used_tokens]
    exact hk
  by_cases hb : (is_rate_limited st2 now (pyUpper c)).1 = true
  · rw [verify_totp_eq_of_limited hotp st now c t (hrl1.trans hb),
      verify_totp_eq_of_limited hotp st2 now c t hb]
    exact ⟨rfl, rfl⟩
  · have hb2 : (is_rate_limited st2 now (pyUpper c)).1 = false := by simpa using hb
    have hb1 : (is_rate_limited st now (pyUpper c)).1 = false := hrl1.trans hb2
    cases hu2 : ((is_rate_limited st2 now (pyUpper c)).2).users (pyUpper c) with
    | none =>
      rw [verify_totp_eq_of_unknown hotp st now c t hb1 (hrlu.trans hu2),
        verify_totp_eq_of_unknown hotp st2 now c t hb2 hu2]
      exact ⟨rfl, rfl⟩
    | some secret =>
      have hu1 : ((is_rate_limited st now (pyUpper c)).2).users (pyUpper c)
          = some secret := hrlu.trans hu2
      have hgd : (((is_rate_limited st now (pyUpper c)).2).used_tokens
            (pyUpper c)).getD (fun _ => none)
          = (((is_rate_limited st2 now (pyUpper c)).2).used_tokens
            (pyUpper c)).getD (fun _ => none) := by rw [hrlk]
      cases hp2 : purge_used ((((is_rate_limited st2 now (pyUpper c)).2).used_tokens
          (pyUpper c)).getD (fun _ => none)) now t with
      | some e =>
        have hp1 : purge_used ((((is_rate_limited st now (pyUpper c)).2).used_tokens
            (pyUpper c)).getD (fun _ => none)) now t = some e := by
          rw [hgd]; exact hp2
        rw [verify_totp_eq_of_replay hotp st now c t secret e hb1 hu1 hp1,
          verify_totp_eq_of_replay hotp st2 now c t secret e hb2 hu2 hp2]
        exact ⟨rfl, rfl⟩
      | none =>
        have hp1 : purge_used ((((is_rate_limited st now (pyUpper c)).2).used_tokens
            (pyUpper c)).getD (fun _ => none)) now t = none := by
          rw [hgd]; exact hp2
        cases htv : totpVerify hotp secret t now with
        | true =>
          rw [verify_totp_eq_of_match hotp st now c t secret hb1 hu1 hp1 htv,
            verify_totp_eq_of_match hotp st2 now c t secret hb2 hu2 hp2 htv]
          exact ⟨rfl, rfl⟩
        | false =>
          rw [verify_totp_eq_of_mismatch hotp st now c t secret hb1 hu1 hp1 htv,
            verify_totp_eq_of_mismatch hotp st2 now c t secret hb2 hu2 hp2 htv]
          exact ⟨rfl, rfl⟩

/-! ## Claim theorems -/

/-- C1: for every pair of strings `identity` and `code` (of any shape or
length) and every authenticator state, clock value and code oracle,
`verify_totp` is a total function returning a `(bool, string)` pair whose
message is one of the four fixed responses — the embedding of the call never
fails, which is the functional rendering of "never raises". -/
theorem verify_totp_never_raises (hotp : String → Int → String) (st : AuthState)
    (now : Int) (callsign token : String) :
    (verify_totp hotp st now callsign token).msg ∈
      ["Too many failed attempts. Try again in 5 minutes.",
       "Invalid callsign or token.",
       "Code already used. Wait for next code.",
       "Authentication successful."] := by
  simp only [verify_totp]
  split
  · simp
  · split
    · simp
    · split
      · simp
      · split <;> simp

/-- C9: the command loop converts the idle timeout to minutes by integer
division, so any configured timeout below 60 seconds runs the expiry check
with a 0-minute timeout, and the bound session counts as expired as soon as
any positive time has elapsed since `last_activity`. -/
theorem commandLoop_subminute_timeout (t : Nat) (s : Session) (now : Int)
    (ht : t < 60) (h : 0 < now - s.last_activity) :
    t / 60 = 0 ∧ command_loop_expiry_check t (some s) now = true := by
  have h0 : t / 60 = 0 := Nat.div_eq_of_lt ht
  refine ⟨h0, ?_⟩
  simp only [command_loop_expiry_check, session_is_expired, h0]
  simpa using h

/-- Witness for `commandLoop_subminute_timeout`: a 30-second configured
timeout and one second of inactivity already expire the session. -/
theorem commandLoop_subminute_timeout_witness :
    (30 : Nat) < 60 ∧
      0 < (101 : Int) - (⟨"K1ABC", 100, 100, "S"⟩ : Session).last_activity ∧
      (30 / 60 = 0 ∧
        command_loop_expiry_check 30 (some ⟨"K1ABC", 100, 100, "S"⟩) 101 = true) :=
  ⟨by norm_num, by norm_num,
   commandLoop_subminute_timeout 30 ⟨"K1ABC", 100, 100, "S"⟩ 101
     (by norm_num) (by norm_num)⟩

/-- C10: with a non-empty safelist, an address string that parses neither as
IPv4 nor as IPv6 — in particular the literal `"unknown"` used when the peer
address is unavailable — is rejected by `is_ip_allowed` (it returns `false`
instead of raising). -/
theorem is_ip_allowed_unparseable (l : List IpNetwork) (a : String)
    (hl : l ≠ []) (ha : ip_address a = none) :
    is_ip_allowed l a = false ∧ is_ip_allowed l (remote_ip_of none) = false := by
  have hemp : l.isEmpty = false := by simpa using hl
  constructor
  · simp [is_ip_allowed, hemp, ha]
  · have hu : ip_address "unknown" = none := by decide
    simp [is_ip_allowed, remote_ip_of, hemp, hu]

/-- Witness for `is_ip_allowed_unparseable`: the `192.168.1.0/24` safelist
rejects the address string `"unknown"`. -/
theorem is_ip_allowed_unparseable_witness :
    ([⟨false, 3232235776, 24⟩] : List IpNetwork) ≠ [] ∧
      ip_address "unknown" = none ∧
      (is_ip_allowed [⟨false, 3232235776, 24⟩] "unknown" = false ∧
        is_ip_allowed [⟨false, 3232235776, 24⟩] (remote_ip_of none) = false) :=
  ⟨by simp, by decide,
   is_ip_allowed_unparseable [⟨false, 3232235776, 24⟩] "unknown"
     (by simp) (by decide)⟩

/-- C2: once `verify_totp` has accepted a code for an identity, any later
call with the same identity and code made while the replay entry is
unexpired (before `now + 90`) is rejected with the replay message — even
under an arbitrary (possibly still-matching) code oracle `hotp2`. -/
theorem totp_replay_window_rejects (hotp hotp2 : String → Int → String)
    (st : AuthState) (now now2 : Int) (c t : String)
    (hok : (verify_totp hotp st now c t).ok = true)
    (_hle : now ≤ now2) (hwin : now2 < now + 90) :
    (verify_totp hotp2 (verify_totp hotp st now c t).st now2 c t).ok = false
    ∧ (verify_totp hotp2 (verify_totp hotp st now c t).st now2 c t).msg
        = "Code already used. Wait for next code."
    ∧ (verify_totp hotp2 (verify_totp hotp st now c t).st now2 c t).st
        = (verify_totp hotp st now c t).st := by
  obtain ⟨hfa, ⟨secret, hu2, -⟩, m, hm, hmt⟩ :=
    verify_totp_ok_state hotp st now c t hok
  have hrl := is_rate_limited_of_none (verify_totp hotp st now c t).st now2
    (pyUpper c) hfa
  have h1 : (is_rate_limited (verify_totp hotp st now c t).st now2 (pyUpper c)).1
      = false := by rw [hrl]
  have hu3 : ((is_rate_limited (verify_totp hotp st now c t).st now2
      (pyUpper c)).2).users (pyUpper c) = some secret := by rw [hrl]; exact hu2
  have hp3 : purge_used ((((is_rate_limited (verify_totp hotp st now c t).st now2
      (pyUpper c)).2).used_tokens (pyUpper c)).getD (fun _ => none)) now2 t
      = some (now + 90) := by
    rw [hrl]
    simp [purge_used, hm, hmt, hwin]
  rw [verify_totp_eq_of_replay hotp2 (verify_totp hotp st now c t).st now2 c t
    secret (now + 90) h1 hu3 hp3]
  refine ⟨rfl, rfl, ?_⟩
  rw [hrl]

/-- Witness for `totp_replay_window_rejects`: `K1ABC` verifies `"111111"`
successfully at time 1000, and the same code is rejected as replayed at time
1050 although the oracle still matches it. -/
theorem totp_replay_window_rejects_witness :
    (verify_totp hotpA stA 1000 "K1ABC" "111111").ok = true
    ∧ (1000 : Int) ≤ 1050 ∧ (1050 : Int) < 1000 + 90
    ∧ ((verify_totp hotpA (verify_totp hotpA stA 1000 "K1ABC" "111111").st 1050
          "K1ABC" "111111").ok = false
      ∧ (verify_totp hotpA (verify_totp hotpA stA 1000 "K1ABC" "111111").st 1050
          "K1ABC" "111111").msg = "Code already used. Wait for next code."
      ∧ (verify_totp hotpA (verify_totp hotpA stA 1000 "K1ABC" "111111").st 1050
          "K1ABC" "111111").st = (verify_totp hotpA stA 1000 "K1ABC" "111111").st) :=
  ⟨by decide, by decide, by decide,
   totp_replay_window_rejects hotpA hotpA stA 1000 1050 "K1ABC" "111111"
     (by decide) (by decide) (by decide)⟩

/-- C6: `get_session` returns `none` for an unknown id; for a stored session
whose inactivity `now - last_activity` exceeds the configured timeout it
deletes the entry (other entries untouched) and returns `none`; otherwise it
refreshes `last_activity` to `now` both in the returned session and in the
table, so every successful lookup counts as activity. -/
theorem get_session_spec (sm : SessionManager) (now : Int) (sid : String) :
    (sm.sessions sid = none → get_session sm now sid = (none, sm))
    ∧ (∀ s, sm.sessions sid = some s →
        (now - s.last_activity > 60 * sm.timeout_minutes →
          (get_session sm now sid).1 = none
          ∧ ((get_session sm now sid).2).sessions sid = none
          ∧ ∀ sid2, sid2 ≠ sid →
              ((get_session sm now sid).2).sessions sid2 = sm.sessions sid2)
        ∧ (¬ now - s.last_activity > 60 * sm.timeout_minutes →
          (get_session sm now sid).1 = some { s with last_activity := now }
          ∧ ((get_session sm now sid).2).sessions sid
              = some { s with last_activity := now }
          ∧ ∀ sid2, sid2 ≠ sid →
              ((get_session sm now sid).2).sessions sid2 = sm.sessions sid2)) := by
  constructor
  · intro h
    simp [get_session, h]
  · intro s hs
    constructor
    · intro hexp
      have he : session_is_expired s sm.timeout_minutes now = true := by
        simpa [session_is_expired] using hexp
      refine ⟨?_, ?_, ?_⟩ <;>
        simp [get_session, hs, he, mapUpdate]
      intro sid2 h2
      simp [h2]
    · intro hexp
      have he : session_is_expired s sm.timeout_minutes now = false := by
        simpa [session_is_expired] using hexp
      refine ⟨?_, ?_, ?_⟩ <;>
        simp [get_session, hs, he, mapUpdate]
      intro sid2 h2
      simp [h2]

/-- Witness for `get_session_spec`: the unknown id `"B"` is absent; the
session `"A"` is deleted at time 2000 (1800 seconds of allowed inactivity
exceeded) and refreshed at time 100. -/
theorem get_session_spec_witness :
    (smA.sessions "B" = none ∧ get_session smA 2000 "B" = (none, smA))
    ∧ (smA.sessions "A" = some ⟨"K1ABC", 0, 0, "A"⟩
       ∧ (2000 : Int) - (0 : Int) > 60 * 30
       ∧ (get_session smA 2000 "A").1 = none
       ∧ ((get_session smA 2000 "A").2).sessions "A" = none
       ∧ ((get_session smA 2000 "A").2).sessions "B" = none)
    ∧ (¬ (100 : Int) - (0 : Int) > 60 * 30
       ∧ (get_session smA 100 "A").1 = some ⟨"K1ABC", 0, 100, "A"⟩) := by
  refine ⟨⟨by decide, (get_session_spec smA 2000 "B").1 (by decide)⟩,
    ⟨by decide, by decide, ?_, ?_, ?_⟩, by decide, ?_⟩
  · exact (((get_session_spec smA 2000 "A").2 ⟨"K1ABC", 0, 0, "A"⟩
      (by decide)).1 (by decide)).1
  · exact (((get_session_spec smA 2000 "A").2 ⟨"K1ABC", 0, 0, "A"⟩
      (by decide)).1 (by decide)).2.1
  · exact ((((get_session_spec smA 2000 "A").2 ⟨"K1ABC", 0, 0, "A"⟩
      (by decide)).1 (by decide)).2.2 "B" (by decide)).trans (by decide)
  · exact (((get_session_spec smA 100 "A").2 ⟨"K1ABC", 0, 0, "A"⟩
      (by decide)).2 (by decide)).1

/-- C3: `is_rate_limited` first purges the identity's failure entries not
newer than `now - 300` (writing the purged list back, other identities
untouched) and returns whether at least 5 remain; consequently a callsign
with ≥ 5 surviving failures gets the lockout message from `verify_totp`
under any code oracle (so even for a currently valid code), with every other
identity's failure log, replay entries and verification outcome unaffected;
and every verification that fails with the generic message appends the
current timestamp to the identity's failure log. -/
theorem rate_limit_spec (st : AuthState) (now : Int) (c : String) :
    ((is_rate_limited st now c).1
        = decide (5 ≤ (((st.failed_attempts c).getD []).filter
            (fun a => decide (a > now - 300))).length)
     ∧ (∀ d, d ≠ c →
          ((is_rate_limited st now c).2).failed_attempts d = st.failed_attempts d)
     ∧ (∀ l, st.failed_attempts c = some l →
          ((is_rate_limited st now c).2).failed_attempts c
            = some (l.filter (fun a => decide (a > now - 300)))))
    ∧ (∀ hotp t, pyUpper c = c →
        5 ≤ (((st.failed_attempts c).getD []).filter
            (fun a => decide (a > now - 300))).length →
        (verify_totp hotp st now c t).ok = false
        ∧ (verify_totp hotp st now c t).msg
            = "Too many failed attempts. Try again in 5 minutes."
        ∧ (verify_totp hotp st now c t).st.used_tokens = st.used_tokens
        ∧ (verify_totp hotp st now c t).st.users = st.users
        ∧ (∀ d, d ≠ c →
            (verify_totp hotp st now c t).st.failed_attempts d
              = st.failed_attempts d)
        ∧ (∀ d, pyUpper d ≠ c → ∀ hotp2 now2 t2,
            (verify_totp hotp2 (verify_totp hotp st now c t).st now2 d t2).ok
              = (verify_totp hotp2 st now2 d t2).ok
            ∧ (verify_totp hotp2 (verify_totp hotp st now c t).st now2 d t2).msg
              = (verify_totp hotp2 st now2 d t2).msg))
    ∧ (∀ hotp t, pyUpper c = c →
        (verify_totp hotp st now c t).msg = "Invalid callsign or token." →
        ∃ l, (verify_totp hotp st now c t).st.failed_attempts c
          = some (l ++ [now])) := by
  have hA1 : (is_rate_limited st now c).1
      = decide (5 ≤ (((st.failed_attempts c).getD []).filter
          (fun a => decide (a > now - 300))).length) := by
    cases h : st.failed_attempts c with
    | none => rw [is_rate_limited_of_none st now c h]; simp
    | some l => rw [is_rate_limited_of_some st now c l h]; simp
  refine ⟨⟨hA1, ?_, ?_⟩, ?_, ?_⟩
  · intro d hd
    exact is_rate_limited_failed_other st now c d hd
  · intro l hl
    rw [is_rate_limited_of_some st now c l hl]
    simp [mapUpdate]
  · intro hotp t hcu h5
    have hb : (is_rate_limited st now (pyUpper c)).1 = true := by
      rw [hcu, hA1]
      exact decide_eq_true h5
    have heq := verify_totp_eq_of_limited hotp st now c t hb
    refine ⟨by rw [heq], by rw [heq], ?_, ?_, ?_, ?_⟩
    · rw [heq]
      exact is_rate_limited_used_tokens st now (pyUpper c)
    · rw [heq]
      exact is_rate_limited_users st now (pyUpper c)
    · intro d hd
      rw [heq]
      exact is_rate_limited_failed_other st now (pyUpper c) d (by rw [hcu]; exact hd)
    · intro d hd hotp2 now2 t2
      refine verify_totp_congr_key hotp2 (verify_totp hotp st now c t).st st now2 d t2
        ?_ ?_ ?_
      · rw [heq, is_rate_limited_users]
      · rw [heq]
        exact is_rate_limited_failed_other st now (pyUpper c) (pyUpper d)
          (by rw [hcu]; exact hd)
      · rw [heq, is_rate_limited_used_tokens]
  · intro hotp t hcu hmsg
    by_cases hb : (is_rate_limited st now (pyUpper c)).1 = true
    · rw [verify_totp_eq_of_limited hotp st now c t hb] at hmsg
      simp at hmsg
    · have hbf : (is_rate_limited st now (pyUpper c)).1 = false := by simpa using hb
      cases hu : ((is_rate_limited st now (pyUpper c)).2).users (pyUpper c) with
      | none =>
        rw [verify_totp_eq_of_unknown hotp st now c t hbf hu]
        refine ⟨((is_rate_limited st now (pyUpper c)).2.failed_attempts
          (pyUpper c)).getD [], ?_⟩
        rw [hcu]
        simp [record_failed_attempt, mapUpdate]
      | some secret =>
        cases hp : purge_used ((((is_rate_limited st now (pyUpper c)).2).used_tokens
            (pyUpper c)).getD (fun _ => none)) now t with
        | some e =>
          rw [verify_totp_eq_of_replay hotp st now c t secret e hbf hu hp] at hmsg
          simp at hmsg
        | none =>
          cases htv : totpVerify hotp secret t now with
          | true =>
            rw [verify_totp_eq_of_match hotp st now c t secret hbf hu hp htv] at hmsg
            simp at hmsg
          | false =>
            rw [verify_totp_eq_of_mismatch hotp st now c t secret hbf hu hp htv]
            refine ⟨((is_rate_limited st now (pyUpper c)).2.failed_attempts
              (pyUpper c)).getD [], ?_⟩
            rw [hcu]
            simp [record_failed_attempt, mapUpdate]

/-- Witness for `rate_limit_spec`: with five failures inside the window,
`K1ABC` is locked out of a currently valid code while `K2DEF`'s outcome is
unchanged; and a failed verification appends its timestamp. -/
theorem rate_limit_spec_witness :
    (pyUpper "K1ABC" = "K1ABC"
     ∧ 5 ≤ (((stL.failed_attempts "K1ABC").getD []).filter
         (fun a => decide (a > 1000 - 300))).length
     ∧ (verify_totp hotpA stL 1000 "K1ABC" "111111").ok = false
     ∧ (verify_totp hotpA stL 1000 "K1ABC" "111111").msg
         = "Too many failed attempts. Try again in 5 minutes."
     ∧ (verify_totp hotpA (verify_totp hotpA stL 1000 "K1ABC" "111111").st 1000
          "K2DEF" "222222").msg = (verify_totp hotpA stL 1000 "K2DEF" "222222").msg)
    ∧ ((verify_totp hotpA stA 1000 "K1ABC" "000000").msg
         = "Invalid callsign or token."
       ∧ ∃ l, (verify_totp hotpA stA 1000 "K1ABC" "000000").st.failed_attempts
           "K1ABC" = some (l ++ [1000])) := by
  refine ⟨⟨by decide, by decide, ?_, ?_, ?_⟩, by decide, ?_⟩
  · exact ((rate_limit_spec stL 1000 "K1ABC").2.1 hotpA "111111"
      (by decide) (by decide)).1
  · exact ((rate_limit_spec stL 1000 "K1ABC").2.1 hotpA "111111"
      (by decide) (by decide)).2.1
  · exact (((rate_limit_spec stL 1000 "K1ABC").2.1 hotpA "111111"
      (by decide) (by decide)).2.2.2.2.2 "K2DEF" (by decide) hotpA 1000 "222222").2
  · exact (rate_limit_spec stA 1000 "K1ABC").2.2 hotpA "000000"
      (by decide) (by decide)

/-- C4: `verify_totp` checks rate limit → identity → replay → TOTP, in that
order: a rate-limited identity gets the lockout message with the replay
cache unchanged and the verdict, message, failure log and replay cache all
independent of the secret store and of the code oracle; a known identity
with a still-valid replay entry gets the replay message with a result fully
independent of the code oracle; only otherwise is the windowed TOTP
comparison consulted, and on mismatch a failure is recorded with the generic
message. -/
theorem verify_order_spec (st : AuthState) (now : Int) (c t : String) :
    ((is_rate_limited st now (pyUpper c)).1 = true →
      ∀ hotp hotp2 u u2,
        (verify_totp hotp st now c t).ok = false
        ∧ (verify_totp hotp st now c t).msg
            = "Too many failed attempts. Try again in 5 minutes."
        ∧ (verify_totp hotp st now c t).st.used_tokens = st.used_tokens
        ∧ (verify_totp hotp { st with users := u } now c t).ok
            = (verify_totp hotp2 { st with users := u2 } now c t).ok
        ∧ (verify_totp hotp { st with users := u } now c t).msg
            = (verify_totp hotp2 { st with users := u2 } now c t).msg
        ∧ (verify_totp hotp { st with users := u } now c t).st.failed_attempts
            = (verify_totp hotp2 { st with users := u2 } now c t).st.failed_attempts
        ∧ (verify_totp hotp { st with users := u } now c t).st.used_tokens
            = (verify_totp hotp2 { st with users := u2 } now c t).st.used_tokens)
    ∧ (∀ secret exp, (is_rate_limited st now (pyUpper c)).1 = false →
        ((is_rate_limited st now (pyUpper c)).2).users (pyUpper c) = some secret →
        purge_used ((((is_rate_limited st now (pyUpper c)).2).used_tokens
            (pyUpper c)).getD (fun _ => none)) now t = some exp →
        ∀ hotp hotp2,
          (verify_totp hotp st now c t).ok = false
          ∧ (verify_totp hotp st now c t).msg
              = "Code already used. Wait for next code."
          ∧ (verify_totp hotp st now c t).st.used_tokens = st.used_tokens
          ∧ verify_totp hotp st now c t = verify_totp hotp2 st now c t)
    ∧ (∀ secret, (is_rate_limited st now (pyUpper c)).1 = false →
        ((is_rate_limited st now (pyUpper c)).2).users (pyUpper c) = some secret →
        purge_used ((((is_rate_limited st now (pyUpper c)).2).used_tokens
            (pyUpper c)).getD (fun _ => none)) now t = none →
        ∀ hotp,
          (verify_totp hotp st now c t).ok = totpVerify hotp secret t now
          ∧ (totpVerify hotp secret t now = false →
              (verify_totp hotp st now c t).msg = "Invalid callsign or token."
              ∧ ∃ l, (verify_totp hotp st now c t).st.failed_attempts (pyUpper c)
                  = some (l ++ [now]))) := by
  refine ⟨?_, ?_, ?_⟩
  · intro hb hotp hotp2 u u2
    have heq := verify_totp_eq_of_limited hotp st now c t hb
    have hbu : (is_rate_limited { st with users := u } now (pyUpper c)).1 = true := by
      rw [is_rate_limited_set_users]
      exact hb
    have hbu2 : (is_rate_limited { st with users := u2 } now (pyUpper c)).1 = true := by
      rw [is_rate_limited_set_users]
      exact hb
    have hequ := verify_totp_eq_of_limited hotp { st with users := u } now c t hbu
    have hequ2 := verify_totp_eq_of_limited hotp2 { st with users := u2 } now c t hbu2
    refine ⟨by rw [heq], by rw [heq],
      by rw [heq]; exact is_rate_limited_used_tokens st now (pyUpper c),
      by rw [hequ, hequ2], by rw [hequ, hequ2], ?_, ?_⟩
    · simp only [hequ, hequ2]
      rw [is_rate_limited_set_users_failed st now (pyUpper c) u,
        is_rate_limited_set_users_failed st now (pyUpper c) u2]
    · simp only [hequ, hequ2]
      rw [is_rate_limited_set_users_used st now (pyUpper c) u,
        is_rate_limited_set_users_used st now (pyUpper c) u2]
  · intro secret exp hb hu hp hotp hotp2
    have heq := verify_totp_eq_of_replay hotp st now c t secret exp hb hu hp
    have heq2 := verify_totp_eq_of_replay hotp2 st now c t secret exp hb hu hp
    exact ⟨by rw [heq],
      by rw [heq],
      by rw [heq]; exact is_rate_limited_used_tokens st now (pyUpper c),
      heq.trans heq2.symm⟩
  · intro secret hb hu hp hotp
    cases htv : totpVerify hotp secret t now with
    | true =>
      have heq := verify_totp_eq_of_match hotp st now c t secret hb hu hp htv
      refine ⟨by rw [heq], ?_⟩
      intro h
      exact absurd h (by decide)
    | false =>
      have heq := verify_totp_eq_of_mismatch hotp st now c t secret hb hu hp htv
      refine ⟨by rw [heq], fun _ => ⟨by simp [heq], ?_⟩⟩
      rw [heq]
      exact ⟨((is_rate_limited st now (pyUpper c)).2.failed_attempts
        (pyUpper c)).getD [], by simp [record_failed_attempt, mapUpdate]⟩

/-- Witness for `verify_order_spec`: the rate-limited state `stL` short-
circuits independently of oracle and store; the replayed state `stR` rejects
`"111111"` independently of the oracle; and the fresh state `stA` consults
the oracle `hotpB`, mismatches `"111111"`, and records the failure. -/
theorem verify_order_spec_witness :
    ((is_rate_limited stL 1000 "K1ABC").1 = true
     ∧ (verify_totp hotpA stL 1000 "K1ABC" "111111").msg
         = "Too many failed attempts. Try again in 5 minutes."
     ∧ (verify_totp hotpA { stL with users := fun _ => none } 1000 "K1ABC"
          "111111").msg
         = (verify_totp hotpB { stL with users := usersA } 1000 "K1ABC"
          "111111").msg)
    ∧ ((verify_totp hotpA stR 1000 "K1ABC" "111111").msg
         = "Code already used. Wait for next code."
       ∧ verify_totp hotpA stR 1000 "K1ABC" "111111"
           = verify_totp hotpB stR 1000 "K1ABC" "111111")
    ∧ ((verify_totp hotpB stA 1000 "K1ABC" "111111").ok
         = totpVerify hotpB "SECRET" "111111" 1000
       ∧ (verify_totp hotpB stA 1000 "K1ABC" "111111").msg
           = "Invalid callsign or token."
       ∧ ∃ l, (verify_totp hotpB stA 1000 "K1ABC" "111111").st.failed_attempts
           (pyUpper "K1ABC") = some (l ++ [1000])) := by
  have hbL : (is_rate_limited stL 1000 (pyUpper "K1ABC")).1 = true := by decide
  have ha := (verify_order_spec stL 1000 "K1ABC" "111111").1 hbL hotpA hotpB
    (fun _ => none) usersA
  have hrb := (verify_order_spec stR 1000 "K1ABC" "111111").2.1 "SECRET" 1090
    (by decide) (by decide) (by decide) hotpA hotpB
  have hc := (verify_order_spec stA 1000 "K1ABC" "111111").2.2 "SECRET"
    (by decide) (by decide) (by decide) hotpB
  exact ⟨⟨by decide, ha.2.1, ha.2.2.2.2.1⟩,
    ⟨hrb.2.1, hrb.2.2.2⟩,
    ⟨hc.1, (hc.2 (by decide)).1, (hc.2 (by decide)).2⟩⟩

/-- C5 (code bug): with `max_auth_attempts = 1` in standard mode, the
malformed code line `"abc"` is rejected locally — `verify_totp` is never
called — yet the login fails with "Maximum authentication attempts
exceeded.", showing the format rejection consumed the configured attempt;
with `max_auth_attempts = 2` the identical input stream succeeds on the
retry.  This contradicts the documented behaviour ("without consuming an
attempt"). -/
theorem authenticate_malformed_code_consumes_attempt :
    (authenticate hotpA 1000 1 "SID" false ["K1ABC", "abc", "K1ABC", "111111"]
        stA smA).ok = false
    ∧ (authenticate hotpA 1000 1 "SID" false ["K1ABC", "abc", "K1ABC", "111111"]
        stA smA).verify_calls = 0
    ∧ "Invalid code format (must be 6 digits)."
        ∈ (authenticate hotpA 1000 1 "SID" false ["K1ABC", "abc", "K1ABC", "111111"]
            stA smA).sent
    ∧ "Maximum authentication attempts exceeded."
        ∈ (authenticate hotpA 1000 1 "SID" false ["K1ABC", "abc", "K1ABC", "111111"]
            stA smA).sent
    ∧ (authenticate hotpA 1000 2 "SID" false ["K1ABC", "abc", "K1ABC", "111111"]
        stA smA).ok = true
    ∧ (authenticate hotpA 1000 2 "SID" false ["K1ABC", "abc", "K1ABC", "111111"]
        stA smA).verify_calls = 1 := by
  exact ⟨by decide, by decide, by decide, by decide, by decide, by decide⟩

/-- C7: the write re-authentication check never touches the session table
(`sm` is returned unchanged in every case), and on every failure — timeout,
malformed code, or `verify_totp` rejection — it reports the failure (the
Authenticator's message in the rejection case) and yields `proceed = false`,
so the command is not executed and control returns to the command prompt. -/
theorem write_reauth_frame (hotp : String → Int → String) (st : AuthState)
    (sm : SessionManager) (now : Int) (c : String) (inputs : List String) :
    (command_write_check hotp st sm now c inputs).sm = sm
    ∧ (inputs = [] →
        command_write_check hotp st sm now c inputs =
          ⟨false, ["", "TOTP Code: ", "Operation cancelled."], st, sm, []⟩)
    ∧ (∀ l rest, inputs = l :: rest →
        validCodeFormat (pyStrip (pyStrip l)) = false →
        command_write_check hotp st sm now c inputs =
          ⟨false, ["", "TOTP Code: ", "Invalid code format (must be 6 digits).", ""],
           st, sm, rest⟩)
    ∧ (∀ l rest, inputs = l :: rest →
        validCodeFormat (pyStrip (pyStrip l)) = true →
        (verify_totp hotp st now c (pyStrip (pyStrip l))).ok = false →
        command_write_check hotp st sm now c inputs =
          ⟨false, ["", "TOTP Code: ",
              (verify_totp hotp st now c (pyStrip (pyStrip l))).msg, ""],
           (verify_totp hotp st now c (pyStrip (pyStrip l))).st, sm, rest⟩) := by
  refine ⟨?_, ?_, ?_, ?_⟩
  · cases inputs with
    | nil => rfl
    | cons l rest =>
      simp only [command_write_check, read_line]
      split
      · rfl
      · split <;> rfl
  · intro h
    subst h
    rfl
  · intro l rest h hv
    subst h
    simp [command_write_check, read_line, hv]
  · intro l rest h hv hok
    subst h
    simp [command_write_check, read_line, hv, hok]

/-- Witness for `write_reauth_frame`: concrete timeout, malformed-code and
wrong-code exchanges, none of which touch the session table. -/
theorem write_reauth_frame_witness :
    (command_write_check hotpA stA smA 1000 "K1ABC" ["000000"]).sm = smA
    ∧ command_write_check hotpA stA smA 1000 "K1ABC" [] =
        ⟨false, ["", "TOTP Code: ", "Operation cancelled."], stA, smA, []⟩
    ∧ validCodeFormat (pyStrip (pyStrip "12ab")) = false
    ∧ command_write_check hotpA stA smA 1000 "K1ABC" ["12ab"] =
        ⟨false, ["", "TOTP Code: ", "Invalid code format (must be 6 digits).", ""],
         stA, smA, []⟩
    ∧ (verify_totp hotpA stA 1000 "K1ABC" (pyStrip (pyStrip "000000"))).ok = false
    ∧ command_write_check hotpA stA smA 1000 "K1ABC" ["000000"] =
        ⟨false, ["", "TOTP Code: ",
            (verify_totp hotpA stA 1000 "K1ABC" (pyStrip (pyStrip "000000"))).msg, ""],
         (verify_totp hotpA stA 1000 "K1ABC" (pyStrip (pyStrip "000000"))).st,
         smA, []⟩ :=
  ⟨(write_reauth_frame hotpA stA smA 1000 "K1ABC" ["000000"]).1,
   (write_reauth_frame hotpA stA smA 1000 "K1ABC" []).2.1 rfl,
   by decide,
   (write_reauth_frame hotpA stA smA 1000 "K1ABC" ["12ab"]).2.2.1 "12ab" [] rfl
     (by decide),
   by decide,
   (write_reauth_frame hotpA stA smA 1000 "K1ABC" ["000000"]).2.2.2 "000000" [] rfl
     (by decide) (by decide)⟩

/-- C8: the IP admission predicate allows every address when the safelist is
empty; with a non-empty safelist it admits exactly the addresses belonging
to at least one listed network; `192.168.1.0/24` admits `192.168.1.1` and
`192.168.1.254` but not `192.168.2.1`; an IPv6 network behaves analogously;
and a malformed safelist entry is skipped at construction without affecting
the other entries. -/
theorem ip_admission_spec :
    (∀ a, is_ip_allowed [] a = true)
    ∧ (∀ (l : List IpNetwork) (a : String), l ≠ [] →
        (is_ip_allowed l a = true ↔
          ∃ ip, ip_address a = some ip ∧ ∃ n ∈ l, addressInNetwork ip n = true))
    ∧ (ip_network "192.168.1.0/24" = some ⟨false, 3232235776, 24⟩
       ∧ is_ip_allowed [⟨false, 3232235776, 24⟩] "192.168.1.1" = true
       ∧ is_ip_allowed [⟨false, 3232235776, 24⟩] "192.168.1.254" = true
       ∧ is_ip_allowed [⟨false, 3232235776, 24⟩] "192.168.2.1" = false)
    ∧ (ip_network "2001:db8::/32"
         = some ⟨true, 42540766411282592856903984951653826560, 32⟩
       ∧ is_ip_allowed [⟨true, 42540766411282592856903984951653826560, 32⟩]
           "2001:db8::1" = true
       ∧ is_ip_allowed [⟨true, 42540766411282592856903984951653826560, 32⟩]
           "2001:db9::1" = false)
    ∧ (∀ bad rest, ip_network bad = none →
        parse_ip_safelist (bad :: rest) = parse_ip_safelist rest) := by
  refine ⟨?_, ?_, by decide, by decide, ?_⟩
  · intro a
    simp [is_ip_allowed]
  · intro l a hl
    have hemp : l.isEmpty = false := by simpa using hl
    simp only [is_ip_allowed, hemp]
    cases h : ip_address a with
    | none => simp
    | some ip => simp [List.any_eq_true]
  · intro bad rest h
    simp [parse_ip_safelist, h]

/-- Witness for `ip_admission_spec`: the membership characterisation at the
`192.168.1.0/24` safelist and the skipping of the malformed entry
`"banana"`. -/
theorem ip_admission_spec_witness :
    (is_ip_allowed [⟨false, 3232235776, 24⟩] "192.168.1.1" = true ↔
      ∃ ip, ip_address "192.168.1.1" = some ip
        ∧ ∃ n ∈ [(⟨false, 3232235776, 24⟩ : IpNetwork)],
            addressInNetwork ip n = true)
    ∧ parse_ip_safelist ["banana", "192.168.1.0/24"]
        = parse_ip_safelist ["192.168.1.0/24"] :=
  ⟨ip_admission_spec.2.1 [⟨false, 3232235776, 24⟩] "192.168.1.1" (by simp),
   ip_admission_spec.2.2.2.2 "banana" ["192.168.1.0/24"] (by decide)⟩

end PacketQTH
